import Mathlib

/-!
Verification of the expo push-notification Go client library.

This file gives a shallow embedding, translated from the Go source, of the
publish pipeline (validation, expansion, response processing), the retry
executor with exponential backoff, token parsing, and the receipt
reconciliation workflow with its retry/terminal classification, and proves
the specified properties about these definitions.

Modelling conventions:
- Go pointers that may be nil become `Option`.
- `[]*Token` becomes `List (Option String)` (a nil pointer or a token string).
- Go `map[string]string` becomes an association list with Go's zero-value
  lookup (missing key yields the empty string).
- Go `error` results become `Except`/`Option` values.
- A nil-pointer dereference (a run-time panic in Go) is modelled by an
  explicit `nilDeref` outcome.
- `time.Duration` and float64 arithmetic in the backoff computation are
  idealized as exact rational arithmetic.
-/

namespace Expo

/-- Go map[string]string, modelled as an association list. -/
abbrev DataMap := List (String × String)

/-- Go map lookup with the zero value: the value bound to the first matching
key, or the empty string when the key is absent. -/
def lookupData (d : DataMap) (key : String) : String :=
  match d.find? (fun p => p.1 == key) with
  | some p => p.2
  | none => ""

/-- Error text from the source: returned when a token lacks the required
ExponentPushToken prefix. -/
def ErrMsgMalformedToken : String := "token should start with ExponentPushToken"

/-- Error code from the source signalling an unregistered device. -/
def ErrorMsgDeviceNotRegistered : String := "DeviceNotRegistered"

/-- ParseToken from the source: errors unless the input starts with
"ExponentPushToken", otherwise returns the token. -/
def ParseToken (token : String) : Except String String :=
  if token.startsWith "ExponentPushToken" then Except.ok token
  else Except.error ErrMsgMalformedToken

/-- MustParseToken from the source: discards the error of ParseToken and
returns the (possibly nil) token pointer. -/
def MustParseToken (token : String) : Option String :=
  match ParseToken token with
  | Except.ok t => some t
  | Except.error _ => none

/-- IsPushTokenValid from the source: true when ParseToken succeeds. -/
def IsPushTokenValid (token : String) : Bool :=
  match ParseToken token with
  | Except.ok _ => true
  | Except.error _ => false

/-- The fields of a Message that the verified pipeline depends on: its
recipient list (nil-able token pointers) plus title/body so that distinct
messages are distinguishable values. -/
structure Message where
  To : List (Option String)
  title : String
  body : String
deriving Repr, DecidableEq

/-- A push ticket (wire MessageResponse) as decoded from the server plus the
MessageItem back-reference assigned by publish. -/
structure MessageResponse where
  messageItem : Option Message
  id : String
  status : String
  message : String
  details : Option DataMap
deriving Repr, DecidableEq

/-- IsOk from the source: ticket status is "ok". -/
def MessageResponse.IsOk (r : MessageResponse) : Bool :=
  r.status == "ok"

/-- The decoded body of a publish reply: data and errors slices, each nil-able. -/
structure Response where
  data : Option (List MessageResponse)
  errors : Option (List DataMap)
deriving Repr, DecidableEq

/-- A push receipt as decoded from the receipts endpoint. -/
structure PushReceipt where
  status : String
  message : String
  details : Option DataMap
deriving Repr, DecidableEq

/-- IsOk from the source: receipt status is "ok". -/
def PushReceipt.IsOk (r : PushReceipt) : Bool :=
  r.status == "ok"

/-- IsDeviceNotRegistered from the source: false when the details map is nil,
otherwise whether details["error"] equals the DeviceNotRegistered code. -/
def PushReceipt.IsDeviceNotRegistered (r : PushReceipt) : Bool :=
  match r.details with
  | none => false
  | some d => lookupData d "error" == ErrorMsgDeviceNotRegistered

/-- The decoded body of a receipts reply: ticket-id-indexed receipts and an
errors slice, each nil-able. -/
structure PushReceiptResponse where
  data : Option (List (String × PushReceipt))
  errors : Option (List DataMap)
deriving Repr, DecidableEq

/-- Validation failures of the publish batch, from the source's message loop
and size check. -/
inductive ValidationError where
  | noRecipients
  | invalidToken
  | tooManyNotifications (count : Nat)
deriving Repr, DecidableEq

/-- The per-message part of publish validation: "no recipients" when the To
list is empty, "invalid push token" when some recipient pointer is nil or the
empty string. -/
def checkMessage (m : Message) : Option ValidationError :=
  if m.To.length = 0 then some ValidationError.noRecipients
  else if m.To.any (fun recipient => recipient == none || recipient == some "") then
    some ValidationError.invalidToken
  else none

/-- The message loop of publish validation: the first per-message error, in
batch order. -/
def firstValidationError : List Message → Option ValidationError
  | [] => none
  | m :: rest =>
    match checkMessage m with
    | some e => some e
    | none => firstValidationError rest

/-- Batch limit from the source (100 notifications per request). -/
def maxNotificationsPerRequest : Nat := 100

/-- Publish validation from the source: the message loop runs first, then the
batch-size limit is checked. -/
def validateBatch (msgs : List Message) : Option ValidationError :=
  match firstValidationError msgs with
  | some e => some e
  | none =>
    if msgs.length > maxNotificationsPerRequest then
      some (ValidationError.tooManyNotifications msgs.length)
    else none

/-- Abort categories of the publish pipeline after a decoded reply. -/
inductive PublishError where
  | validation (e : ValidationError)
  | invalidRequest
  | invalidServerResponse
  | mismatchedLength (expected received : Nat)
deriving Repr, DecidableEq

/-- The expansion loop of publish: one flat entry per (message, recipient)
pair, in declaration order, each entry being the originating message. -/
def expandMessages (msgs : List Message) : List Message :=
  msgs.flatMap (fun msg => msg.To.map (fun _ => msg))

/-- The assignment loop of publish: ticket i receives the i-th expanded
message as its MessageItem. -/
def assignMessageItems (data : List MessageResponse) (expanded : List Message) :
    List MessageResponse :=
  List.zipWith (fun t m => { t with messageItem := some m }) data expanded

/-- The tail of publish after the reply body is decoded to a non-nil Response:
a non-nil errors slice aborts with invalidRequest, a nil data slice aborts
with invalidServerResponse, a length mismatch between the expansion and the
ticket array aborts with a mismatchedLength error carrying both counts, and
otherwise each ticket is paired positionally with its originating message. -/
def processResponse (msgs : List Message) (r : Response) :
    Except PublishError (List MessageResponse) :=
  if r.errors.isSome then Except.error PublishError.invalidRequest
  else
    match r.data with
    | none => Except.error PublishError.invalidServerResponse
    | some data =>
      if (expandMessages msgs).length ≠ data.length then
        Except.error
          (PublishError.mismatchedLength (expandMessages msgs).length data.length)
      else
        Except.ok (assignMessageItems data (expandMessages msgs))

/-- Outcome of the publish tail including the run-time panic: in Go, a body
that JSON-decodes to null leaves the *Response pointer nil with no decode
error, and the subsequent r.Errors field access dereferences nil. -/
inductive PublishOutcome where
  | ok (tickets : List MessageResponse)
  | err (e : PublishError)
  | nilDeref
deriving Repr, DecidableEq

/-- The publish tail starting at the decoded (nil-able) Response pointer.
A nil pointer (body "null") reaches the r.Errors nil dereference. -/
def publishAfterDecode (msgs : List Message) (decoded : Option Response) :
    PublishOutcome :=
  match decoded with
  | none => PublishOutcome.nilDeref
  | some r =>
    match processResponse msgs r with
    | Except.ok out => PublishOutcome.ok out
    | Except.error e => PublishOutcome.err e

/-- Outcome of the receipts tail including the run-time panic on a nil
decoded pointer. -/
inductive ReceiptsOutcome where
  | ok (receipts : List (String × PushReceipt))
  | errFetching
  | nilDeref
deriving Repr, DecidableEq

/-- The GetPushReceipts tail starting at the decoded (nil-able)
PushReceiptResponse pointer: a nil pointer (body "null") reaches the
receiptResp.Errors nil dereference; a non-nil errors slice aborts with the
fetching error; otherwise the (possibly nil, hence empty) data map is
returned. -/
def receiptsAfterDecode (decoded : Option PushReceiptResponse) :
    ReceiptsOutcome :=
  match decoded with
  | none => ReceiptsOutcome.nilDeref
  | some r =>
    if r.errors.isSome then ReceiptsOutcome.errFetching
    else ReceiptsOutcome.ok (r.data.getD [])

/-- RetryConfig from the source. MaxRetries is modelled as a natural number
(the Go int is nonnegative in every use, default 3); the durations and the
multiplier are modelled as exact rationals. -/
structure RetryConfig where
  maxRetries : Nat
  initialInterval : ℚ
  maxInterval : ℚ
  multiplier : ℚ
deriving Repr, DecidableEq

/-- DefaultRetryConfig from the source: 3 retries, 1s initial interval, 30s
max interval (in nanoseconds, as time.Duration counts), multiplier 2. -/
def DefaultRetryConfig : RetryConfig :=
  { maxRetries := 3
    initialInterval := 1000000000
    maxInterval := 30000000000
    multiplier := 2 }

/-- IsRetryableError from the source: the fixed retryable status set. -/
def IsRetryableError (statusCode : Int) : Bool :=
  statusCode == 429 || statusCode == 500 || statusCode == 502 ||
    statusCode == 503 || statusCode == 504

/-- ExponentialBackoff from the source: the initial interval for attempt <= 0,
otherwise initialInterval * multiplier^(attempt-1) capped at maxInterval
(float64 arithmetic idealized as exact rational arithmetic). -/
def RetryConfig.ExponentialBackoff (c : RetryConfig) (attempt : Int) : ℚ :=
  if attempt ≤ 0 then c.initialInterval
  else if c.initialInterval * c.multiplier ^ (attempt - 1).toNat > c.maxInterval then
    c.maxInterval
  else c.initialInterval * c.multiplier ^ (attempt - 1).toNat

/-- One invocation of the retried action: either a transport-level error or a
response with a status code. -/
inductive FnOutcome where
  | transportError
  | response (statusCode : Int)
deriving Repr, DecidableEq

/-- The error recorded between attempts of WithRetry: the transport error, or
the retryable-server marker built from a retryable response. -/
inductive RetryError where
  | transport
  | retryableServer (statusCode : Int)
deriving Repr, DecidableEq

/-- Result of WithRetry: the response returned from some attempt (with its
zero-based attempt index and status code), or exhaustion carrying the last
recorded error. -/
inductive RetryResult where
  | success (attempt : Nat) (statusCode : Int)
  | exhausted (lastErr : Option RetryError)
deriving Repr, DecidableEq

/-- The attempt loop of WithRetry from the source, with the action modelled
as a function from the attempt index to its outcome: a transport error or a
retryable status records an error and continues; any other response is
returned immediately; when attempts run out the last recorded error is
returned. -/
def retryLoop (fn : Nat → FnOutcome) : Nat → Nat → Option RetryError → RetryResult
  | _, 0, lastErr => RetryResult.exhausted lastErr
  | attempt, remaining + 1, _ =>
    match fn attempt with
    | FnOutcome.transportError =>
      retryLoop fn (attempt + 1) remaining (some RetryError.transport)
    | FnOutcome.response s =>
      if IsRetryableError s then
        retryLoop fn (attempt + 1) remaining (some (RetryError.retryableServer s))
      else RetryResult.success attempt s

/-- WithRetry from the source: attempts 0 through maxRetries inclusive. -/
def WithRetry (c : RetryConfig) (fn : Nat → FnOutcome) : RetryResult :=
  retryLoop fn 0 (c.maxRetries + 1) none

/-- Number of action invocations performed by the attempt loop. -/
def retryLoopCount (fn : Nat → FnOutcome) : Nat → Nat → Nat
  | _, 0 => 0
  | attempt, remaining + 1 =>
    match fn attempt with
    | FnOutcome.transportError => 1 + retryLoopCount fn (attempt + 1) remaining
    | FnOutcome.response s =>
      if IsRetryableError s then 1 + retryLoopCount fn (attempt + 1) remaining
      else 1

/-- Number of action invocations performed by WithRetry. -/
def invocationCount (c : RetryConfig) (fn : Nat → FnOutcome) : Nat :=
  retryLoopCount fn 0 (c.maxRetries + 1)

/-- Whether an invocation outcome causes WithRetry to retry. -/
def retryableOutcome : FnOutcome → Bool
  | FnOutcome.transportError => true
  | FnOutcome.response s => IsRetryableError s

/-- The error WithRetry records for a retried outcome. -/
def recordedError : FnOutcome → RetryError
  | FnOutcome.transportError => RetryError.transport
  | FnOutcome.response s => RetryError.retryableServer s

/-- PushResult from the source, with Go error values modelled as optional
error strings. -/
structure PushResult where
  ticketID : String
  message : Option Message
  pushTicket : Option MessageResponse
  pushReceipt : Option PushReceipt
  error : Option String
deriving Repr, DecidableEq

/-- ShouldRetryToken from the source: when a receipt with a non-nil details
map is present, retry exactly when its error code differs from
DeviceNotRegistered; otherwise retry exactly when the result carries an
error. -/
def PushResult.ShouldRetryToken (r : PushResult) : Bool :=
  match r.pushReceipt with
  | some receipt =>
    match receipt.details with
    | some d => !(lookupData d "error" == ErrorMsgDeviceNotRegistered)
    | none => r.error.isSome
  | none => r.error.isSome

/-- IsSuccessful from the source. -/
def PushResult.IsSuccessful (r : PushResult) : Bool :=
  r.error.isNone &&
    (match r.pushTicket with
     | some t => t.IsOk
     | none => false) &&
    (match r.pushReceipt with
     | some rec => rec.IsOk
     | none => false)

/-- Step 2 of SendPushNotificationsWithReceipts, per response: a ticket with
ok status and non-empty id becomes an eligible result carrying its ticket id;
any other ticket becomes a terminal result with the push-ticket error built
from the ticket message. -/
def buildResult (response : MessageResponse) : PushResult :=
  if response.IsOk && response.id != "" then
    { ticketID := response.id
      message := response.messageItem
      pushTicket := some response
      pushReceipt := none
      error := none }
  else
    { ticketID := ""
      message := response.messageItem
      pushTicket := some response
      pushReceipt := none
      error := some ("push ticket error: " ++ response.message) }

/-- The ticket ids collected during step 2: ids of responses with ok status
and non-empty id, in order. -/
def collectTicketIDs (responses : List MessageResponse) : List String :=
  (responses.filter (fun r => r.IsOk && r.id != "")).map (fun r => r.id)

/-- Receipt-map lookup by ticket id. -/
def lookupReceipt (receipts : List (String × PushReceipt)) (id : String) :
    Option PushReceipt :=
  (receipts.find? (fun p => p.1 == id)).map (fun p => p.2)

/-- Step 5 of SendPushNotificationsWithReceipts, per result: an eligible
result whose ticket id has a matching receipt gets the receipt attached, and
a receipt-level error when the receipt status is not ok; other results are
unchanged. -/
def attachReceipt (receipts : List (String × PushReceipt)) (result : PushResult) :
    PushResult :=
  if result.ticketID != "" then
    match lookupReceipt receipts result.ticketID with
    | some receipt =>
      { result with
        pushReceipt := some receipt
        error :=
          if receipt.IsOk then result.error
          else some ("push receipt error: " ++ receipt.message) }
    | none => result
  else result

/-- Abstracted outcome of the publish step inside the workflow. -/
inductive PublishStep where
  | ok (responses : List MessageResponse)
  | err (message : String)
deriving Repr, DecidableEq

/-- Abstracted outcome of the receipt-fetch step inside the workflow. -/
inductive FetchStep where
  | ok (receipts : List (String × PushReceipt))
  | err (message : String)
deriving Repr, DecidableEq

/-- SendPushNotificationsWithReceipts from the source, with the publish call
and the receipt fetch abstracted as outcome parameters and the timed wait
elided (it only suspends): a publish failure aborts; otherwise results and
ticket ids are built per step 2; with no eligible ticket the terminal results
are returned immediately and the fetch outcome is never consulted; a fetch
failure returns the step-2 results together with the wrapped fetch error; a
fetch success attaches receipts per step 5. -/
def SendPushNotificationsWithReceipts (pub : PublishStep) (fetch : FetchStep) :
    Option (List PushResult) × Option String :=
  match pub with
  | PublishStep.err e => (none, some ("failed to send push notifications: " ++ e))
  | PublishStep.ok responses =>
    let results := responses.map buildResult
    let ticketIDs := collectTicketIDs responses
    if ticketIDs.isEmpty then (some results, none)
    else
      match fetch with
      | FetchStep.err e =>
        (some results, some ("failed to fetch push receipts: " ++ e))
      | FetchStep.ok receipts =>
        (some (results.map (attachReceipt receipts)), none)

/-! Helper lemmas. -/

/-- The expansion has one entry per (message, recipient) pair: its length is
the sum of the recipient counts. -/
theorem expandMessages_length (msgs : List Message) :
    (expandMessages msgs).length = (msgs.map (fun m => m.To.length)).sum := by
  simp [expandMessages, List.length_flatMap, Function.comp_def]

/-- C10: for every input lacking the ExponentPushToken prefix, MustParseToken
returns a nil token pointer and no error (it cannot panic), while ParseToken
returns the malformed-token error and no token. -/
theorem mustParseToken_malformed (s : String)
    (h : s.startsWith "ExponentPushToken" = false) :
    MustParseToken s = none ∧ ParseToken s = Except.error ErrMsgMalformedToken := by
  have hp : ParseToken s = Except.error ErrMsgMalformedToken := by
    unfold ParseToken
    rw [h]
    rfl
  refine ⟨?_, hp⟩
  unfold MustParseToken
  rw [hp]

/-- Witness for C10 at the concrete input "junk". -/
theorem mustParseToken_malformed_witness :
    MustParseToken "junk" = none ∧
      ParseToken "junk" = Except.error ErrMsgMalformedToken :=
  mustParseToken_malformed "junk" (by decide)

/-- C3: ExponentialBackoff returns the initial interval for every attempt at
most 0, and min(initialInterval * multiplier^(attempt-1), maxInterval) for
every attempt at least 1. -/
theorem exponentialBackoff_spec (c : RetryConfig) (attempt : Int) :
    (attempt ≤ 0 → c.ExponentialBackoff attempt = c.initialInterval) ∧
    (1 ≤ attempt →
      c.ExponentialBackoff attempt =
        min (c.initialInterval * c.multiplier ^ (attempt - 1).toNat)
          c.maxInterval) := by
  constructor
  · intro h
    simp [RetryConfig.ExponentialBackoff, h]
  · intro h
    have h0 : ¬ attempt ≤ 0 := by omega
    rw [RetryConfig.ExponentialBackoff, if_neg h0]
    rcases le_or_lt (c.initialInterval * c.multiplier ^ (attempt - 1).toNat)
        c.maxInterval with hle | hlt
    · rw [if_neg (not_lt.mpr hle), min_eq_left hle]
    · rw [if_pos hlt, min_eq_right (le_of_lt hlt)]

/-- Witness for C3 at the default configuration, attempts 0 and 2. -/
theorem exponentialBackoff_spec_witness :
    DefaultRetryConfig.ExponentialBackoff 0 = DefaultRetryConfig.initialInterval ∧
    DefaultRetryConfig.ExponentialBackoff 2 =
      min (DefaultRetryConfig.initialInterval *
            DefaultRetryConfig.multiplier ^ ((2 : Int) - 1).toNat)
        DefaultRetryConfig.maxInterval :=
  ⟨(exponentialBackoff_spec DefaultRetryConfig 0).1 (by decide),
   (exponentialBackoff_spec DefaultRetryConfig 2).2 (by decide)⟩

/-- C9: a reply body that JSON-decodes to null leaves the decoded pointer
nil, and both the publish tail and the receipts tail then dereference the nil
pointer (r.Errors / receiptResp.Errors) and panic at run time instead of
returning a descriptive error. -/
theorem nullBody_reaches_nilDeref :
    publishAfterDecode [{ To := [some "ExponentPushToken[a]"], title := "t", body := "b" }]
        none = PublishOutcome.nilDeref ∧
    receiptsAfterDecode none = ReceiptsOutcome.nilDeref :=
  ⟨rfl, rfl⟩

/-- C1: for every batch accepted by validation, the expansion length is the
sum of the recipient counts; the publish tail aborts with the mismatchedLength
server-contract error carrying both counts (returning no tickets) exactly
when the decoded ticket array length differs from the expansion length, and
otherwise returns exactly one ticket per (message, recipient) expansion
entry, in expansion order. -/
theorem publish_count_contract (msgs : List Message) (data : List MessageResponse)
    (_hval : validateBatch msgs = none) :
    (expandMessages msgs).length = (msgs.map (fun m => m.To.length)).sum ∧
    ((expandMessages msgs).length ≠ data.length →
      processResponse msgs { data := some data, errors := none } =
        Except.error
          (PublishError.mismatchedLength (expandMessages msgs).length data.length)) ∧
    ((expandMessages msgs).length = data.length →
      processResponse msgs { data := some data, errors := none } =
        Except.ok (assignMessageItems data (expandMessages msgs)) ∧
      (assignMessageItems data (expandMessages msgs)).length = data.length) := by
  refine ⟨expandMessages_length msgs, ?_, ?_⟩
  · intro hne
    simp [processResponse, hne]
  · intro heq
    constructor
    · simp [processResponse, heq]
    · simp [assignMessageItems, List.length_zipWith, heq]

/-- A single-recipient message used as concrete witness input. -/
def msgW1 : Message :=
  { To := [some "ExponentPushToken[a]"], title := "m", body := "" }

/-- A concrete ok ticket used as witness input. -/
def ticketW1 : MessageResponse :=
  { messageItem := none, id := "id1", status := "ok", message := "", details := none }

/-- Witness for C1: a validated one-recipient batch, one reply of length 0
(mismatch) and one of length 1 (success). -/
theorem publish_count_contract_witness :
    validateBatch [msgW1] = none ∧
    processResponse [msgW1] { data := some [], errors := none } =
      Except.error
        (PublishError.mismatchedLength (expandMessages [msgW1]).length 0) ∧
    processResponse [msgW1] { data := some [ticketW1], errors := none } =
      Except.ok (assignMessageItems [ticketW1] (expandMessages [msgW1])) := by
  have hval : validateBatch [msgW1] = none := by decide
  exact ⟨hval,
    (publish_count_contract [msgW1] [] hval).2.1 (by decide),
    ((publish_count_contract [msgW1] [ticketW1] hval).2.2 (by decide)).1⟩

/-- C4: on a successful publish (ticket array length equal to the expansion
length), ticket i of the returned list carries as its MessageItem exactly the
message that produced the i-th entry of the expansion. -/
theorem publish_positional_pairing (msgs : List Message)
    (data : List MessageResponse) (i : Nat)
    (hlen : (expandMessages msgs).length = data.length) (hi : i < data.length) :
    ∃ out,
      processResponse msgs { data := some data, errors := none } = Except.ok out ∧
      out.length = data.length ∧
      out[i]?.map (fun t => t.messageItem) = ((expandMessages msgs)[i]?).map some := by
  refine ⟨assignMessageItems data (expandMessages msgs), ?_, ?_, ?_⟩
  · simp [processResponse, hlen]
  · simp [assignMessageItems, List.length_zipWith, hlen]
  · have hiexp : i < (expandMessages msgs).length := by omega
    obtain ⟨t, ht⟩ : ∃ t, data[i]? = some t :=
      ⟨data[i], List.getElem?_eq_getElem hi⟩
    obtain ⟨m, hm⟩ : ∃ m, (expandMessages msgs)[i]? = some m :=
      ⟨(expandMessages msgs)[i], List.getElem?_eq_getElem hiexp⟩
    rw [assignMessageItems, List.getElem?_zipWith', ht, hm]
    simp

/-- A two-recipient message used as concrete witness input. -/
def msgW2 : Message :=
  { To := [some "ExponentPushToken[a]", some "ExponentPushToken[b]"]
    title := "hello"
    body := "" }

/-- A second concrete ok ticket used as witness input. -/
def ticketW2 : MessageResponse :=
  { messageItem := none, id := "id2", status := "ok", message := "", details := none }

/-- Witness for C4: one message addressed to two tokens yields two tickets
whose expansion entries are both that same originating message. -/
theorem publish_positional_pairing_witness :
    (∃ out,
      processResponse [msgW2] { data := some [ticketW1, ticketW2], errors := none } =
        Except.ok out ∧
      out.length = [ticketW1, ticketW2].length ∧
      out[0]?.map (fun t => t.messageItem) = ((expandMessages [msgW2])[0]?).map some) ∧
    (∃ out,
      processResponse [msgW2] { data := some [ticketW1, ticketW2], errors := none } =
        Except.ok out ∧
      out.length = [ticketW1, ticketW2].length ∧
      out[1]?.map (fun t => t.messageItem) = ((expandMessages [msgW2])[1]?).map some) ∧
    (expandMessages [msgW2])[0]? = some msgW2 ∧
    (expandMessages [msgW2])[1]? = some msgW2 :=
  ⟨publish_positional_pairing [msgW2] [ticketW1, ticketW2] 0 (by decide) (by decide),
   publish_positional_pairing [msgW2] [ticketW1, ticketW2] 1 (by decide) (by decide),
   by decide, by decide⟩

/-- A result with no error whose receipt has an empty but non-nil details
map: a concrete counterexample input for the retry classification claim. -/
def detailedOkReceiptResult : PushResult :=
  { ticketID := "t"
    message := none
    pushTicket := none
    pushReceipt := some { status := "ok", message := "", details := some [] }
    error := none }

/-- C5 counterexample: this result has no error, yet ShouldRetryToken is true
(its receipt has a non-nil empty details map, whose "error" lookup yields the
empty string, which differs from DeviceNotRegistered), refuting that
retry-eligibility requires the result to have an error. -/
theorem shouldRetryToken_counterexample :
    detailedOkReceiptResult.ShouldRetryToken = true ∧
    detailedOkReceiptResult.error.isSome = false := by decide

/-- C5 amended: ShouldRetryToken is true exactly when either a receipt with a
non-nil details map is present and its "error" code differs from
DeviceNotRegistered (regardless of the error field), or no receipt with a
non-nil details map is present and the result carries an error; in
particular any result whose receipt details carry the DeviceNotRegistered
code is terminal. -/
theorem shouldRetryToken_amended (r : PushResult) :
    r.ShouldRetryToken = true ↔
      ((∃ receipt d, r.pushReceipt = some receipt ∧ receipt.details = some d ∧
          lookupData d "error" ≠ ErrorMsgDeviceNotRegistered) ∨
        ((∀ receipt, r.pushReceipt = some receipt → receipt.details = none) ∧
          r.error.isSome = true)) := by
  cases hrec : r.pushReceipt with
  | none => simp [PushResult.ShouldRetryToken, hrec]
  | some receipt =>
    cases hd : receipt.details with
    | none => simp [PushResult.ShouldRetryToken, hrec, hd]
    | some d => simp [PushResult.ShouldRetryToken, hrec, hd]

/-- Witness for C5 amended at the concrete counterexample input. -/
theorem shouldRetryToken_amended_witness :
    (∃ receipt d,
        detailedOkReceiptResult.pushReceipt = some receipt ∧
        receipt.details = some d ∧
        lookupData d "error" ≠ ErrorMsgDeviceNotRegistered) ∨
      ((∀ receipt, detailedOkReceiptResult.pushReceipt = some receipt →
          receipt.details = none) ∧
        detailedOkReceiptResult.error.isSome = true) :=
  (shouldRetryToken_amended detailedOkReceiptResult).mp (by decide)

/-- A message whose single token is non-empty but lacks the required prefix. -/
def malformedTokenMsg : Message := { To := [some "junk"], title := "", body := "" }

/-- C6 counterexample: "junk" lacks the ExponentPushToken prefix, yet the
batch passes publish validation, so publish raises no synchronous
InvalidToken error for this malformed token. -/
theorem publish_validation_counterexample :
    ("junk".startsWith "ExponentPushToken") = false ∧
    validateBatch [malformedTokenMsg] = none := by
  exact ⟨by decide, by decide⟩

/-- The message loop reports the invalid-token error for every batch whose
messages all have at least one recipient and in which some recipient pointer
is nil or the empty string. -/
theorem firstValidationError_invalidToken (msgs : List Message)
    (hne : ∀ m, m ∈ msgs → m.To ≠ [])
    (hbad : ∃ m, m ∈ msgs ∧ ∃ t, t ∈ m.To ∧ (t = none ∨ t = some "")) :
    firstValidationError msgs = some ValidationError.invalidToken := by
  induction msgs with
  | nil =>
    obtain ⟨m, hm, _⟩ := hbad
    cases hm
  | cons m rest ih =>
    have hmne : m.To ≠ [] := hne m (List.mem_cons_self m rest)
    have hlen0 : ¬ m.To.length = 0 := fun h => hmne (List.length_eq_zero.mp h)
    by_cases hany :
        m.To.any (fun recipient => recipient == none || recipient == some "") = true
    · have hcm : checkMessage m = some ValidationError.invalidToken := by
        rw [checkMessage, if_neg hlen0, if_pos hany]
      simp [firstValidationError, hcm]
    · obtain ⟨m0, hm0, t, ht, hbadt⟩ := hbad
      have hm0rest : m0 ∈ rest := by
        rcases List.mem_cons.mp hm0 with rfl | h
        · exfalso
          apply hany
          rw [List.any_eq_true]
          refine ⟨t, ht, ?_⟩
          rcases hbadt with rfl | rfl <;> simp
        · exact h
      have hcm : checkMessage m = none := by
        rw [checkMessage, if_neg hlen0, if_neg hany]
      simp only [firstValidationError, hcm]
      exact ih (fun m2 hm2 => hne m2 (List.mem_cons_of_mem m hm2))
        ⟨m0, hm0rest, t, ht, hbadt⟩

/-- C6 amended: publish rejects synchronously, before any network call, every
batch in which some recipient token pointer is nil or the empty string (given
every message has at least one recipient, so the empty-recipients check does
not fire first); recipient tokens are never checked against the
ExponentPushToken prefix format. -/
theorem publish_validation_amended (msgs : List Message)
    (hne : ∀ m, m ∈ msgs → m.To ≠ [])
    (hbad : ∃ m, m ∈ msgs ∧ ∃ t, t ∈ m.To ∧ (t = none ∨ t = some "")) :
    validateBatch msgs = some ValidationError.invalidToken := by
  rw [validateBatch, firstValidationError_invalidToken msgs hne hbad]

/-- A message whose single token pointer is the empty string. -/
def emptyTokenMsg : Message := { To := [some ""], title := "", body := "" }

/-- Witness for C6 amended at a concrete batch with an empty token. -/
theorem publish_validation_amended_witness :
    validateBatch [emptyTokenMsg] = some ValidationError.invalidToken :=
  publish_validation_amended [emptyTokenMsg] (by decide) (by decide)

/-- A ticket with a non-empty identifier but error status. -/
def errorTicket : MessageResponse :=
  { messageItem := none, id := "X", status := "error", message := "boom", details := none }

/-- C7 counterexample: this ticket carries the non-empty identifier "X", yet
it is not eligible for the receipt fetch (its status is not ok): no ticket id
is collected for it and its result is terminal with the push-ticket error. -/
theorem receipts_partition_counterexample :
    errorTicket.id ≠ "" ∧
    collectTicketIDs [errorTicket] = [] ∧
    (buildResult errorTicket).ticketID = "" ∧
    (buildResult errorTicket).error = some ("push ticket error: " ++ "boom") := by
  refine ⟨by decide, by decide, by decide, ?_⟩
  rw [buildResult, if_neg (by decide)]
  rfl

/-- C7 amended: exactly the tickets with ok status AND a non-empty identifier
are eligible for the receipt fetch; every other ticket is terminal with the
push-ticket error built from its message; when no eligible ticket exists the
workflow returns immediately with only the terminal entries, never consulting
the fetch outcome. -/
theorem receipts_partition_amended :
    (∀ resp : MessageResponse, (resp.IsOk && resp.id != "") = true →
      buildResult resp =
        { ticketID := resp.id, message := resp.messageItem,
          pushTicket := some resp, pushReceipt := none, error := none }) ∧
    (∀ resp : MessageResponse, (resp.IsOk && resp.id != "") = false →
      buildResult resp =
        { ticketID := "", message := resp.messageItem,
          pushTicket := some resp, pushReceipt := none,
          error := some ("push ticket error: " ++ resp.message) }) ∧
    (∀ (responses : List MessageResponse) (fetch : FetchStep),
      collectTicketIDs responses = [] →
      SendPushNotificationsWithReceipts (PublishStep.ok responses) fetch =
        (some (responses.map buildResult), none)) := by
  refine ⟨?_, ?_, ?_⟩
  · intro resp h
    rw [buildResult, if_pos h]
  · intro resp h
    rw [buildResult, if_neg (by simp [h])]
  · intro responses fetch h
    simp [SendPushNotificationsWithReceipts, h]

/-- A concrete eligible ok ticket. -/
def okTicket : MessageResponse :=
  { messageItem := none, id := "ok1", status := "ok", message := "", details := none }

/-- Witness for C7 amended at concrete eligible and non-eligible tickets. -/
theorem receipts_partition_amended_witness :
    buildResult okTicket =
      { ticketID := okTicket.id, message := okTicket.messageItem,
        pushTicket := some okTicket, pushReceipt := none, error := none } ∧
    buildResult errorTicket =
      { ticketID := "", message := errorTicket.messageItem,
        pushTicket := some errorTicket, pushReceipt := none,
        error := some ("push ticket error: " ++ errorTicket.message) } ∧
    SendPushNotificationsWithReceipts (PublishStep.ok [errorTicket])
        (FetchStep.err "down") =
      (some ([errorTicket].map buildResult), none) :=
  ⟨receipts_partition_amended.1 okTicket (by decide),
   receipts_partition_amended.2.1 errorTicket (by decide),
   receipts_partition_amended.2.2 [errorTicket] (FetchStep.err "down") (by decide)⟩

/-- C8: when some eligible ticket exists and the receipt fetch fails, the
workflow returns the step-2 result list unchanged (one entry per ticket,
terminal entries keeping their errors, no entry carrying a receipt) together
with the wrapped fetch error. -/
theorem receipts_fetch_failure (responses : List MessageResponse) (e : String)
    (hne : collectTicketIDs responses ≠ []) :
    SendPushNotificationsWithReceipts (PublishStep.ok responses) (FetchStep.err e) =
      (some (responses.map buildResult),
        some ("failed to fetch push receipts: " ++ e)) ∧
    (responses.map buildResult).length = responses.length ∧
    (∀ r, r ∈ responses.map buildResult → r.pushReceipt = none) := by
  refine ⟨?_, by simp, ?_⟩
  · have hie : (collectTicketIDs responses).isEmpty = false := by
      cases hc : collectTicketIDs responses with
      | nil => exact absurd hc hne
      | cons a l => rfl
    simp [SendPushNotificationsWithReceipts, hie]
  · intro r hr
    obtain ⟨resp, _, rfl⟩ := List.mem_map.mp hr
    rw [buildResult]
    split <;> rfl

/-- Witness for C8 at a concrete eligible batch and fetch failure. -/
theorem receipts_fetch_failure_witness :
    SendPushNotificationsWithReceipts (PublishStep.ok [okTicket])
        (FetchStep.err "down") =
      (some ([okTicket].map buildResult),
        some ("failed to fetch push receipts: " ++ "down")) ∧
    ([okTicket].map buildResult).length = [okTicket].length ∧
    (∀ r, r ∈ [okTicket].map buildResult → r.pushReceipt = none) :=
  receipts_fetch_failure [okTicket] "down" (by decide)

/-- The attempt loop performs at most as many invocations as it has attempts
left. -/
theorem retryLoopCount_le (fn : Nat → FnOutcome) :
    ∀ (remaining attempt : Nat), retryLoopCount fn attempt remaining ≤ remaining := by
  intro remaining
  induction remaining with
  | zero =>
    intro attempt
    simp [retryLoopCount]
  | succ r ih =>
    intro attempt
    cases hfn : fn attempt with
    | transportError =>
      simp only [retryLoopCount, hfn]
      have := ih (attempt + 1)
      omega
    | response s =>
      by_cases hs : IsRetryableError s = true
      · simp only [retryLoopCount, hfn, hs, if_true]
        have := ih (attempt + 1)
        omega
      · simp [retryLoopCount, hfn, hs]

/-- Characterization of a loop run that returns a response: the returning
attempt is within the budget, its outcome is that non-retryable response,
every earlier attempt in the run had a retryable outcome, and the invocation
count is the distance from the start to the returning attempt plus one. -/
theorem retryLoop_success_spec (fn : Nat → FnOutcome) :
    ∀ (remaining attempt : Nat) (lastErr : Option RetryError) (i : Nat) (s : Int),
      retryLoop fn attempt remaining lastErr = RetryResult.success i s →
      attempt ≤ i ∧ i < attempt + remaining ∧ fn i = FnOutcome.response s ∧
        IsRetryableError s = false ∧
        (∀ j, attempt ≤ j → j < i → retryableOutcome (fn j) = true) ∧
        retryLoopCount fn attempt remaining = i + 1 - attempt := by
  intro remaining
  induction remaining with
  | zero =>
    intro attempt lastErr i s h
    simp [retryLoop] at h
  | succ r ih =>
    intro attempt lastErr i s h
    cases hfn : fn attempt with
    | transportError =>
      simp only [retryLoop, hfn] at h
      obtain ⟨h1, h2, h3, h4, h5, h6⟩ := ih (attempt + 1) _ i s h
      refine ⟨by omega, by omega, h3, h4, ?_, ?_⟩
      · intro j hj1 hj2
        rcases Nat.eq_or_lt_of_le hj1 with heq | hlt
        · subst heq
          simp [retryableOutcome, hfn]
        · exact h5 j hlt hj2
      · simp only [retryLoopCount, hfn]
        omega
    | response s0 =>
      by_cases hs : IsRetryableError s0 = true
      · simp only [retryLoop, hfn, hs, if_true] at h
        obtain ⟨h1, h2, h3, h4, h5, h6⟩ := ih (attempt + 1) _ i s h
        refine ⟨by omega, by omega, h3, h4, ?_, ?_⟩
        · intro j hj1 hj2
          rcases Nat.eq_or_lt_of_le hj1 with heq | hlt
          · subst heq
            simp [retryableOutcome, hfn, hs]
          · exact h5 j hlt hj2
        · simp only [retryLoopCount, hfn, hs, if_true]
          omega
      · simp only [retryLoop, hfn] at h
        rw [if_neg hs] at h
        obtain ⟨rfl, rfl⟩ := RetryResult.success.inj h
        have hs' : IsRetryableError s0 = false := by
          simp only [Bool.not_eq_true] at hs
          exact hs
        refine ⟨Nat.le_refl attempt, by omega, hfn, hs', ?_, ?_⟩
        · intro j hj1 hj2
          omega
        · simp only [retryLoopCount, hfn]
          rw [if_neg hs]
          omega

/-- Characterization of a loop run that exhausts its attempts: every attempt
in the run had a retryable outcome, every attempt was invoked, and the
returned error is the error recorded for the last invocation (or the
incoming error when there was no attempt left at all). -/
theorem retryLoop_exhausted_spec (fn : Nat → FnOutcome) :
    ∀ (remaining attempt : Nat) (lastErr e : Option RetryError),
      retryLoop fn attempt remaining lastErr = RetryResult.exhausted e →
      (∀ j, attempt ≤ j → j < attempt + remaining → retryableOutcome (fn j) = true) ∧
      retryLoopCount fn attempt remaining = remaining ∧
      (remaining = 0 → e = lastErr) ∧
      (0 < remaining → e = some (recordedError (fn (attempt + remaining - 1)))) := by
  intro remaining
  induction remaining with
  | zero =>
    intro attempt lastErr e h
    simp only [retryLoop] at h
    obtain rfl := (RetryResult.exhausted.inj h).symm
    exact ⟨fun j hj1 hj2 => (by omega : False).elim, rfl, fun _ => rfl,
      fun h0 => (by omega : False).elim⟩
  | succ r ih =>
    intro attempt lastErr e h
    have step :
        ∀ (err0 : RetryError),
          retryLoop fn (attempt + 1) r (some err0) = RetryResult.exhausted e →
          retryableOutcome (fn attempt) = true →
          recordedError (fn attempt) = err0 →
          retryLoopCount fn attempt (r + 1) = 1 + retryLoopCount fn (attempt + 1) r →
          (∀ j, attempt ≤ j → j < attempt + (r + 1) → retryableOutcome (fn j) = true) ∧
          retryLoopCount fn attempt (r + 1) = r + 1 ∧
          (r + 1 = 0 → e = lastErr) ∧
          (0 < r + 1 → e = some (recordedError (fn (attempt + (r + 1) - 1)))) := by
      intro err0 hrec hretry hrecorded hcount
      obtain ⟨h1, h2, h3, h4⟩ := ih (attempt + 1) (some err0) e hrec
      refine ⟨?_, by omega, fun h0 => (by omega : False).elim, ?_⟩
      · intro j hj1 hj2
        rcases Nat.eq_or_lt_of_le hj1 with heq | hlt
        · subst heq
          exact hretry
        · exact h1 j hlt (by omega)
      · intro h0
        rcases Nat.eq_zero_or_pos r with hr0 | hrpos
        · subst hr0
          have he : e = some err0 := h3 rfl
          have harg : attempt + (0 + 1) - 1 = attempt := by omega
          rw [he, harg, hrecorded]
        · have he := h4 hrpos
          have harg : attempt + 1 + r - 1 = attempt + (r + 1) - 1 := by omega
          rw [he, harg]
    cases hfn : fn attempt with
    | transportError =>
      simp only [retryLoop, hfn] at h
      exact step RetryError.transport h (by simp [retryableOutcome, hfn])
        (by simp [recordedError, hfn]) (by simp only [retryLoopCount, hfn])
    | response s0 =>
      by_cases hs : IsRetryableError s0 = true
      · simp only [retryLoop, hfn, hs, if_true] at h
        exact step (RetryError.retryableServer s0) h
          (by simp [retryableOutcome, hfn, hs])
          (by simp [recordedError, hfn])
          (by simp only [retryLoopCount, hfn, hs, if_true])
      · simp only [retryLoop, hfn] at h
        rw [if_neg hs] at h
        exact absurd h (by simp)

/-- C2: WithRetry invokes the action at most maxRetries+1 times; when it
returns a response, the returning attempt is within the budget, its status
is outside the retryable set and the response is returned as-is (not
converted to an error), every earlier attempt had a transport error or a
retryable status (it retried exactly on those), and the invocation count is
the returning attempt index plus one; when all attempts are exhausted, every
attempt had a transport error or retryable status, exactly maxRetries+1
invocations happened, and the error recorded for the last attempt is
returned. -/
theorem withRetry_spec (c : RetryConfig) (fn : Nat → FnOutcome) :
    invocationCount c fn ≤ c.maxRetries + 1 ∧
    (∀ i s, WithRetry c fn = RetryResult.success i s →
      i ≤ c.maxRetries ∧ fn i = FnOutcome.response s ∧
      IsRetryableError s = false ∧
      (∀ j, j < i → retryableOutcome (fn j) = true) ∧
      invocationCount c fn = i + 1) ∧
    (∀ e, WithRetry c fn = RetryResult.exhausted e →
      (∀ j, j ≤ c.maxRetries → retryableOutcome (fn j) = true) ∧
      invocationCount c fn = c.maxRetries + 1 ∧
      e = some (recordedError (fn c.maxRetries))) := by
  refine ⟨retryLoopCount_le fn (c.maxRetries + 1) 0, ?_, ?_⟩
  · intro i s h
    obtain ⟨h1, h2, h3, h4, h5, h6⟩ :=
      retryLoop_success_spec fn (c.maxRetries + 1) 0 none i s h
    have h6' : invocationCount c fn = i + 1 - 0 := h6
    exact ⟨by omega, h3, h4, fun j hj => h5 j (Nat.zero_le j) hj, by omega⟩
  · intro e h
    obtain ⟨h1, h2, h3, h4⟩ :=
      retryLoop_exhausted_spec fn (c.maxRetries + 1) 0 none e h
    have h2' : invocationCount c fn = c.maxRetries + 1 := h2
    refine ⟨fun j hj => h1 j (Nat.zero_le j) (by omega), h2', ?_⟩
    have he := h4 (by omega)
    have harg : 0 + (c.maxRetries + 1) - 1 = c.maxRetries := by omega
    rw [harg] at he
    exact he

/-- A concrete action for the C2 witness: transport error on attempt 0, a
non-retryable 200 response afterwards. -/
def fnWitness : Nat → FnOutcome :=
  fun attempt => if attempt = 0 then FnOutcome.transportError else FnOutcome.response 200

/-- Witness for C2 at the default configuration and the concrete action. -/
theorem withRetry_spec_witness :
    WithRetry DefaultRetryConfig fnWitness = RetryResult.success 1 200 ∧
    1 ≤ DefaultRetryConfig.maxRetries ∧
    fnWitness 1 = FnOutcome.response 200 ∧
    IsRetryableError 200 = false ∧
    invocationCount DefaultRetryConfig fnWitness = 2 := by
  have h : WithRetry DefaultRetryConfig fnWitness = RetryResult.success 1 200 := by
    decide
  have hs := (withRetry_spec DefaultRetryConfig fnWitness).2.1 1 200 h
  exact ⟨h, hs.1, hs.2.1, hs.2.2.1, hs.2.2.2.2⟩

end Expo
